import Mathlib

/-!
Verification of the XAT conversational backend orchestration core.

The development shallowly embeds the Python sources:
  - Dialogs/restaurant_booking_script.py  (the fixed booking script)
  - Dialogs/restaurant_script_engine.py   (get_next_step, the session engine)
  - backend/app/services/restaurant_service.py
      (contains_restaurant_trigger, extract_required_features, query_places
       result filtering, handle_restaurant_dialog, rag_query_cache)
  - backend/app/services/language_service.py (detect_language)
  - backend/app/services/chat_service.py  (sanitize_input, process_request_async)

External collaborators (langdetect, the GPT completion service, the RAG
engine, metrics) are modelled as function parameters that may either return
a value or signal a Python exception, mirroring the call boundaries of the
source.  Python dictionaries are modelled as insertion-ordered association
lists, Python float scores as exact rationals, and Python exceptions as an
explicit error type.
-/

namespace XAT

/-- Python exception kinds that the embedded code can raise or observe. -/
inductive PyErr where
  | typeError
  | valueError
  | keyError
  | indexError
  | timeoutError
  | otherError
  deriving Repr, DecidableEq

instance {ε α : Type} [DecidableEq ε] [DecidableEq α] : DecidableEq (Except ε α) :=
  fun x y =>
    match x, y with
    | Except.ok a, Except.ok b =>
      match decEq a b with
      | isTrue h => isTrue (h ▸ rfl)
      | isFalse h => isFalse (fun hh => h (Except.ok.inj hh))
    | Except.error a, Except.error b =>
      match decEq a b with
      | isTrue h => isTrue (h ▸ rfl)
      | isFalse h => isFalse (fun hh => h (Except.error.inj hh))
    | Except.ok _, Except.error _ => isFalse (fun hh => Except.noConfusion hh)
    | Except.error _, Except.ok _ => isFalse (fun hh => Except.noConfusion hh)

/-- Python `str.lower()` (ASCII case folding; the code points exercised by
the theorems below are unaffected by the difference to full Unicode
folding). -/
def lowerStr (s : String) : String := String.mk (s.toList.map Char.toLower)

/-- Python `str.strip()`: drop leading and trailing whitespace. -/
def pyStrip (s : String) : String :=
  String.mk (((s.toList.dropWhile Char.isWhitespace).reverse.dropWhile
    Char.isWhitespace).reverse)

/-- `needle` is a prefix of `hay`. -/
def listPrefixOf {α : Type} [DecidableEq α] : List α → List α → Bool
  | [], _ => true
  | _ :: _, [] => false
  | a :: as, b :: bs => if a = b then listPrefixOf as bs else false

/-- `needle` occurs contiguously inside `hay`. -/
def listSubOf {α : Type} [DecidableEq α] (needle : List α) : List α → Bool
  | [] => needle.isEmpty
  | b :: bs => listPrefixOf needle (b :: bs) || listSubOf needle bs

/-- Python `needle in hay` on strings: contiguous-substring test. -/
def substrOf (needle hay : String) : Bool :=
  listSubOf needle.toList hay.toList

/-- Python `str.isdigit()`: nonempty and every character is a digit. -/
def isDigitStr (s : String) : Bool :=
  !s.toList.isEmpty && s.toList.all Char.isDigit

namespace Dialogs

/-- A segment of a Python format string: literal text or a `\x7bname\x7d`
placeholder.  The prompts of restaurant_booking_script.py are embedded
structurally so that `str.format` can be modelled without parsing. -/
inductive Seg where
  | lit (s : String)
  | var (name : String)
  deriving Repr, DecidableEq

/-- A message template (`str.format`-style string). -/
abbrev Template := List Seg

/-- One entry of the `steps` list of `DIALOG_SCRIPTS["restaurant_booking"]`:
an `id`, an optional `expect` key and a per-language message table. -/
structure Step where
  id : String
  expect : Option String
  message : List (String × Template)
  deriving Repr, DecidableEq

/-- Step `ask_people` of restaurant_booking_script.py. -/
def ask_people : Step :=
  { id := "ask_people"
    expect := some ("people")
    message :=
      [("en", [Seg.lit ("How many people are you booking for?")]),
       ("ru", [Seg.lit ("На сколько человек вы хотите забронировать?")]),
       ("fr", [Seg.lit ("Pour combien de personnes souhaitez-vous réserver?")]),
       ("es", [Seg.lit ("¿Para cuántas personas desea reservar?")]),
       ("de", [Seg.lit ("Für wie viele Personen möchten Sie reservieren?")]),
       ("ca", [Seg.lit ("Per a quantes persones vols fer la reserva?")])] }

/-- Step `ask_time` of restaurant_booking_script.py. -/
def ask_time : Step :=
  { id := "ask_time"
    expect := some ("time")
    message :=
      [("en", [Seg.lit ("What time would you like the reservation?")]),
       ("ru", [Seg.lit ("На какое время вы хотите забронировать?")]),
       ("fr", [Seg.lit ("À quelle heure souhaitez-vous réserver?")]),
       ("es", [Seg.lit ("¿A qué hora desea reservar?")]),
       ("de", [Seg.lit ("Um wie viel Uhr möchten Sie reservieren?")]),
       ("ca", [Seg.lit ("A quina hora vols fer la reserva?")])] }

/-- Step `confirm` of restaurant_booking_script.py (no `expect` key). -/
def confirm : Step :=
  { id := "confirm"
    expect := none
    message :=
      [("en", [Seg.lit ("Great, I\x27ve booked a table for "), Seg.var ("people"),
               Seg.lit (" at "), Seg.var ("time"), Seg.lit (". Bon appétit!")]),
       ("ru", [Seg.lit ("Отлично, я забронировал столик на "), Seg.var ("people"),
               Seg.lit (" в "), Seg.var ("time"), Seg.lit (". Приятного аппетита!")]),
       ("fr", [Seg.lit ("Parfait, j\x27ai réservé une table pour "), Seg.var ("people"),
               Seg.lit (" à "), Seg.var ("time"), Seg.lit (". Bon appétit!")]),
       ("es", [Seg.lit ("Genial, he reservado una mesa para "), Seg.var ("people"),
               Seg.lit (" a las "), Seg.var ("time"), Seg.lit (". ¡Buen provecho!")]),
       ("de", [Seg.lit ("Super, ich habe einen Tisch für "), Seg.var ("people"),
               Seg.lit (" um "), Seg.var ("time"), Seg.lit (" reserviert. Guten Appetit!")]),
       ("ca", [Seg.lit ("Genial! T\x27he reservat una taula per a "), Seg.var ("people"),
               Seg.lit (" a les "), Seg.var ("time"), Seg.lit (". Bon profit!")])] }

/-- `DIALOG_SCRIPTS["restaurant_booking"]["steps"]`. -/
def script : List Step := [ask_people, ask_time, confirm]

/-- Renders a template back to its literal source text (placeholders kept);
this is what Python returns when a format string is used unformatted. -/
def renderRaw (t : Template) : String :=
  t.foldl (fun acc s =>
    acc ++ match s with
      | Seg.lit l => l
      | Seg.var n => "\x7b" ++ n ++ "\x7d") ""

/-- Looks up a key in an insertion-ordered association list. -/
def assocFind {κ ν : Type} [DecidableEq κ] (l : List (κ × ν)) (k : κ) : Option ν :=
  match l.find? (fun p => p.1 = k) with
  | some p => some p.2
  | none => none

/-- Python dict assignment `d[k] = v`: updates the existing binding in
place, otherwise appends. -/
def assocSet {κ ν : Type} [DecidableEq κ] : List (κ × ν) → κ → ν → List (κ × ν)
  | [], k, v => [(k, v)]
  | (k', v') :: rest, k, v =>
    if k' = k then (k, v) :: rest else (k', v') :: assocSet rest k v

/-- `step["message"].get(lang, step["message"]["en"])`: every message table
of the embedded script has an `"en"` entry, so the eager `["en"]` lookup of
the source never raises here. -/
def msgGet (m : List (String × Template)) (lang : String) : Template :=
  match assocFind m lang with
  | some t => t
  | none => (assocFind m ("en")).getD []

/-- `msg_template.format(**state["data"])` for a session slot map.  Python
first unpacks `**data`, raising TypeError when a key is not a string (the
engine can store a raw reply under key `None`), then substitutes, raising
KeyError for a placeholder without a binding. -/
def renderFormat (t : Template) (data : List (Option String × String)) :
    Except PyErr String :=
  if data.any (fun kv => kv.1.isNone) then Except.error PyErr.typeError
  else
    t.foldlM (fun acc s =>
      match s with
      | Seg.lit l => Except.ok (acc ++ l)
      | Seg.var n =>
        match assocFind data (some n) with
        | some v => Except.ok (acc ++ v)
        | none => Except.error PyErr.keyError) ""

/-- One `state["dialog"]` transcript entry. -/
inductive DialogEntry where
  | user (s : String)
  | bot (s : String)
  deriving Repr, DecidableEq

/-- One value of `SESSION_STATE`: `current_step`, slot map `data`,
transcript `dialog` and the language recorded at creation. -/
structure SessionState where
  current_step : Nat
  data : List (Option String × String)
  dialog : List DialogEntry
  lang : String
  deriving Repr, DecidableEq

/-- The `SESSION_STATE` module-level dictionary. -/
abbrev Store := List (String × SessionState)

/-- External collaborators of restaurant_script_engine.py: the language
detector and the two GPT-backed slot extractors.  `extractPeople` is
imported from `utils.nlp_parser` but defined nowhere under src/; both
extractors are modelled at the interface of §6 of the spec: they return
the extracted value or the string `"unknown"`. -/
structure DialogEnv where
  detectLang : String → Except PyErr String
  extractPeople : String → String → String
  extractTime : String → String → String

/-- `supported_langs = list(DIALOG_SCRIPTS[...]["steps"][0]["message"].keys())`. -/
def supported_langs : List String := ask_people.message.map Prod.fst

/-- Lines 29-38 of restaurant_script_engine.py: detect the language of the
user input (falling back to `"en"` on any detector failure), lower-case,
strip, and fall back to `"en"` when unsupported. -/
def resolve_dialog_lang (env : DialogEnv) (user_input : String) : String :=
  let lang0 :=
    match env.detectLang user_input with
    | Except.ok l => l
    | Except.error _ => "en"
  let lang1 := pyStrip (lowerStr lang0)
  if supported_langs.contains lang1 then lang1 else "en"

/-- The `final_responses` table of lines 81-88. -/
def final_responses : List (String × String) :=
  [("en", "Thanks! Your booking is saved. 🐾"),
   ("ru", "Спасибо! Ваш заказ принят. 🐾"),
   ("es", "¡Gracias! Su reserva está hecha. 🐾"),
   ("fr", "Merci! Votre réservation est faite. 🐾"),
   ("de", "Danke! Ihre Reservierung ist abgeschlossen. 🐾"),
   ("ca", "Gràcies! La teva reserva està feta. 🐾")]

/-- Lines 79-104 of restaurant_script_engine.py: after the (possible) step
advance, either emit the final confirmation or the message of the step now
current, appending the bot reply to the transcript.  `st` already carries
the appended user entry; the updated session is written back to the store
on every path, mirroring the in-place mutation of the source. -/
def emit_reply (store : Store) (session_id lang : String) (st : SessionState) :
    Except PyErr String × Store :=
  if h : st.current_step ≥ script.length then
    let final := ((assocFind final_responses lang).getD
      ((assocFind final_responses ("en")).getD ""))
    let st := { st with dialog := st.dialog ++ [DialogEntry.bot final] }
    (Except.ok final, assocSet store session_id st)
  else
    let step := script.get ⟨st.current_step, by omega⟩
    let tmpl := msgGet step.message lang
    let msgE : Except PyErr String :=
      if step.id = "confirm" then
        match renderFormat tmpl st.data with
        | Except.ok s => Except.ok s
        | Except.error PyErr.keyError =>
          Except.ok (renderRaw ((assocFind step.message ("en")).getD []))
        | Except.error e => Except.error e
      else Except.ok (renderRaw tmpl)
    match msgE with
    | Except.ok m =>
      let st := { st with dialog := st.dialog ++ [DialogEntry.bot m] }
      (Except.ok m, assocSet store session_id st)
    | Except.error e => (Except.error e, assocSet store session_id st)

/-- Lines 50-104 of restaurant_script_engine.py, after the session `st` for
`session_id` has been fetched (creating it if absent).  The store returned
on an error path keeps the mutations made before the exception, as the
in-place Python mutation does. -/
def get_next_step_body (env : DialogEnv) (store : Store)
    (session_id user_input lang : String) (st : SessionState) :
    Except PyErr String × Store :=
  let step_idx := st.current_step
  let raw := pyStrip user_input
  let st := { st with dialog := st.dialog ++ [DialogEntry.user raw] }
  if step_idx > 0 then
    if h : step_idx - 1 < script.length then
      let prev := script.get ⟨step_idx - 1, h⟩
      let expected_key := prev.expect
      if expected_key = some ("people") then
        let parsed := env.extractPeople raw lang
        if parsed ≠ "unknown" then
          let st := { st with data := assocSet st.data (some ("people")) parsed,
                              current_step := st.current_step + 1 }
          emit_reply store session_id lang st
        else
          (Except.ok (renderRaw (msgGet prev.message lang)),
           assocSet store session_id st)
      else if expected_key = some ("time") then
        let parsed := env.extractTime raw lang
        if parsed ≠ "unknown" then
          let st := { st with data := assocSet st.data (some ("time")) parsed,
                              current_step := st.current_step + 1 }
          emit_reply store session_id lang st
        else
          (Except.ok (renderRaw (msgGet prev.message lang)),
           assocSet store session_id st)
      else
        let st := { st with data := assocSet st.data expected_key raw,
                            current_step := st.current_step + 1 }
        emit_reply store session_id lang st
    else
      (Except.error PyErr.indexError, assocSet store session_id st)
  else
    emit_reply store session_id lang st

/-- `get_next_step(session_id, user_input)` of restaurant_script_engine.py:
the complete per-call transition of the dialog session engine. -/
def get_next_step (env : DialogEnv) (store : Store)
    (session_id user_input : String) : Except PyErr String × Store :=
  let lang := resolve_dialog_lang env user_input
  match assocFind store session_id with
  | some st => get_next_step_body env store session_id user_input lang st
  | none =>
    let st : SessionState := { current_step := 0, data := [], dialog := [], lang := lang }
    get_next_step_body env (assocSet store session_id st) session_id user_input lang st

end Dialogs

namespace RestaurantService

open Dialogs (assocFind assocSet)

/-- The `FEATURE_KEYWORDS` table of restaurant_service.py (dict iteration
order is definition order). -/
def FEATURE_KEYWORDS : List (String × List (String × List String)) :=
  [("has_terrace",
    [("en", ["terrace", "outdoor", "patio"]),
     ("es", ["terraza", "exterior", "patio"]),
     ("fr", ["terrasse", "extérieur"]),
     ("de", ["terrasse", "draußen"]),
     ("it", ["terrazza", "esterno"]),
     ("ca", ["terrassa", "exterior"]),
     ("ru", ["террас", "веранд", "уличн"])]),
   ("sea_view",
    [("en", ["sea view", "ocean view", "water view"]),
     ("es", ["vista al mar", "vistas al mar", "vista al océano"]),
     ("fr", ["vue sur la mer", "vue sur l\x27océan"]),
     ("de", ["meerblick", "ozeanblick"]),
     ("it", ["vista mare", "vista sull\x27oceano"]),
     ("ca", ["vistes al mar", "vista al mar"]),
     ("ru", ["вид на море", "морской вид", "вид на океан"])]),
   ("booking",
    [("en", ["book", "reserve", "reservation"]),
     ("es", ["reservar", "reserva", "reservación"]),
     ("fr", ["réserver", "réservation"]),
     ("de", ["buchen", "reservieren", "reservierung"]),
     ("it", ["prenotare", "prenotazione"]),
     ("ca", ["reservar", "reserva"]),
     ("ru", ["бронир", "резервир", "заказ", "забронировать"])])]

/-- `extract_required_features(user_input, lang)`: marks a feature `True`
iff some keyword of the (possibly defaulted) language occurs in the
lowercased input; features are never set to `False`. -/
def extract_required_features (user_input : String) (lang : String) :
    List (String × Bool) :=
  let lowered := lowerStr user_input
  let lang :=
    if (((assocFind FEATURE_KEYWORDS ("has_terrace")).getD []).map Prod.fst).contains lang
    then lang else "en"
  FEATURE_KEYWORDS.foldl (fun features ft =>
    let keywords :=
      match assocFind ft.2 lang with
      | some ks => ks
      | none => (assocFind ft.2 ("en")).getD []
    if keywords.any (fun keyword => substrOf keyword lowered) then
      assocSet features ft.1 true
    else features) []

/-- `contains_restaurant_trigger(text, lang)` over a keyword table
(`RESTAURANT_KEYWORDS_BY_LANG`, loaded from external YAML configuration):
returns True iff some keyword of `lang` occurs in the lowercased text and
is not listed for any other configured language. -/
def contains_restaurant_trigger (table : List (String × List String))
    (text lang : String) : Bool :=
  let lowered := lowerStr text
  ((assocFind table lang).getD []).any (fun keyword =>
    substrOf keyword lowered &&
      !(table.any (fun p => (p.1 != lang) && p.2.contains keyword)))

/-- The metadata dictionary of a retrieved node (`node.node.metadata`);
absent keys are modelled as `none` so that the `metadata.get(key, default)`
reads of the source keep their defaulting behavior. -/
structure NodeMeta where
  name : Option String
  category : Option String
  direction : Option String
  email : Option String
  has_booking : Option Bool
  features : Option (List (String × Bool))
  deriving Repr, DecidableEq

/-- One element of `response.source_nodes` as consumed by `query_places`:
the retriever-reported relevance score and the document. -/
structure SourceNode where
  score : Option ℚ
  text : String
  meta : NodeMeta
  deriving Repr, DecidableEq

/-- One element of the `results` list built by `query_places` (lines
220-228); the retriever score is not carried over. -/
structure Place where
  name : String
  category : String
  text : String
  direction : String
  has_booking : Bool
  email : String
  features : List (String × Bool)
  deriving Repr, DecidableEq

/-- The result dictionary appended for a surviving node. -/
def mkPlace (n : SourceNode) : Place :=
  { name := n.meta.name.getD ""
    category := n.meta.category.getD ""
    text := n.text
    direction := n.meta.direction.getD ""
    has_booking := n.meta.has_booking.getD false
    email := n.meta.email.getD ""
    features := n.meta.features.getD [] }

/-- `features.get(key)` for a node (`metadata.get("features", {})` first). -/
def featuresGet (n : SourceNode) (key : String) : Option Bool :=
  assocFind (n.meta.features.getD []) key

/-- Line 217 of restaurant_service.py: a node is skipped iff
`any(features.get(key) != val for key, val in required_features.items())`. -/
def keepNode (required_features : List (String × Bool)) (n : SourceNode) : Bool :=
  !(required_features.any (fun kv => featuresGet n kv.1 != some kv.2))

/-- Lines 210-228 of `query_places`: filter the retrieved nodes by the
required features and build the result dictionaries. -/
def query_places_results (required_features : List (String × Bool))
    (nodes : List SourceNode) : List Place :=
  (nodes.filter (keepNode required_features)).map mkPlace

/-- The retry loop of `query_places` (max_retries = 3): attempt the RAG
engine, retrying on timeout or error, returning the nodes of the first
success and `none` after the final failure. -/
def rag_try (engine : Nat → Except PyErr (List SourceNode)) :
    Nat → Nat → Option (List SourceNode)
  | _, 0 => none
  | attempt, rem + 1 =>
    match engine attempt with
    | Except.ok nodes => some nodes
    | Except.error _ => rag_try engine (attempt + 1) rem

/-- `query_places(user_query, required_features)`: cached lookup keyed by
the query together with the required-feature pairs, then the engine under
the retry discipline (every engine failure is absorbed; exhaustion yields
`[]`), then filtering.  The cache is a read snapshot of `rag_query_cache`;
an uninitialized engine is the `engine` always failing. -/
def query_places_model
    (cache : String × List (String × Bool) → Option (List Place))
    (engine : Nat → Except PyErr (List SourceNode))
    (user_query : String) (required_features : List (String × Bool)) :
    List Place :=
  match cache (user_query, required_features) with
  | some results => results
  | none =>
    match rag_try engine 0 3 with
    | some nodes => query_places_results required_features nodes
    | none => []

/-- The fixed reply of the generic `except Exception` handler of
`handle_restaurant_dialog` (line 383). -/
def unavailable_reply : String :=
  "My restaurant booking system is currently unavailable. Please try again later! 🐱"

/-- The fixed reply of the `asyncio.TimeoutError` handler (line 376). -/
def slow_reply : String :=
  "Sorry, the restaurant booking system is taking too long to respond. Please try again later! 🐱"

/-- A Python positional call of `get_next_step`, which is defined with the
two parameters `(session_id, user_input)`: binding any other number of
positional arguments raises TypeError before the body runs, leaving the
session store untouched. -/
def callGetNextStep (env : Dialogs.DialogEnv) (store : Dialogs.Store)
    (args : List String) : Except PyErr String × Dialogs.Store :=
  match args with
  | [session_id, user_input] => Dialogs.get_next_step env store session_id user_input
  | _ => (Except.error PyErr.typeError, store)

/-- `handle_restaurant_dialog(user_input, session_id, lang)` of
restaurant_service.py: runs `get_next_step(session_id, lang, user_input)`
— three positional arguments — under a timeout, converting
`asyncio.TimeoutError` to the `slow_reply` branch and any other exception
to `unavailable_reply` via the generic handler. -/
def handle_restaurant_dialog (env : Dialogs.DialogEnv) (store : Dialogs.Store)
    (user_input session_id lang : String) : String × Dialogs.Store :=
  match callGetNextStep env store [session_id, lang, user_input] with
  | (Except.ok reply, store') => (reply, store')
  | (Except.error PyErr.timeoutError, store') => (slow_reply, store')
  | (Except.error _, store') => (unavailable_reply, store')

end RestaurantService

namespace LanguageService

/-- The `EXCEPTION_WORDS` list of language_service.py. -/
def EXCEPTION_WORDS : List String :=
  ["Привет", "Ну", "Че", "Чо", "Емое", "Ёмое", "Йо", "Норм", "Лол", "Ок", "Понял"]

/-- `detect_language(text)` of backend/app/services/language_service.py,
parameterized by the external `langdetect.detect` call: empty input and
any detector failure fall back to `"en"`, Russian exception words force
`"ru"`, and numeric-only input returns the `"same_as_before"` marker. -/
def detect_language (langdetect : String → Except PyErr String)
    (text : String) : String :=
  if pyStrip text = "" then "en"
  else if EXCEPTION_WORDS.any (fun word => substrOf (lowerStr word) (lowerStr text)) then "ru"
  else if isDigitStr (pyStrip text) then "same_as_before"
  else
    match langdetect text with
    | Except.ok detected_lang => if detected_lang = "" then "en" else detected_lang
    | Except.error _ => "en"

end LanguageService

namespace ChatService

open Dialogs (assocFind)
open RestaurantService

/-- `TRANSLATION_LABELS` of chat_service.py. -/
def TRANSLATION_LABELS : List (String × String) :=
  [("en", "Translation"), ("es", "Traducción"), ("fr", "Traduction"),
   ("de", "Übersetzung"), ("it", "Traduzione"), ("pt", "Tradução"),
   ("ru", "Перевод"), ("ca", "Traducció (EN)")]

/-- `SUPPORTED_LANGS` of chat_service.py. -/
def SUPPORTED_LANGS : List String := ["en", "es", "fr", "de", "ca", "ru"]

/-- `ChatService.sanitize_input` on a string: drop control characters
(code points below 32) and truncate to 500 characters. -/
def sanitize_input (text : String) : String :=
  let sanitized := String.mk (text.toList.filter (fun c => 32 ≤ c.toNat))
  if sanitized.length > 500 then String.mk (sanitized.toList.take 500) else sanitized

/-- Lines 136-149 of `process_request_async`: use the caller-supplied
language if given, otherwise run the detector; any tag outside
`SUPPORTED_LANGS` (including the `"same_as_before"` marker) falls back to
`"en"`. -/
def resolve_language (langdetect : String → Except PyErr String)
    (user_input : String) (detected_language : Option String) : String :=
  let detected_lang :=
    match detected_language with
    | some l => l
    | none => LanguageService.detect_language langdetect user_input
  if SUPPORTED_LANGS.contains detected_lang then detected_lang else "en"

/-- `position_weight = 1.0 - (i * 0.05)` (line 171), exactly over ℚ. -/
def position_weight (i : Nat) : ℚ := 1 - i * (1 / 20)

/-- Lines 160-176 of `process_request_async`: cap at 10 results, attach
`score * position_weight`, and sort descending by that key with Python
stable sort semantics.  `hasattr(r, 'score')` is False for the plain
dictionaries produced by `query_places`, so `score` keeps its `0.0`
default on every iteration. -/
def score_of_result (_r : Place) : ℚ := 0

/-- Stable insertion of `x` into a descending-sorted list: `x` goes before
the first element whose key is not larger, so ties keep original order. -/
def insertDesc {α : Type} (key : α → ℚ) (x : α) : List α → List α
  | [] => [x]
  | y :: ys => if key x < key y then y :: insertDesc key x ys else x :: y :: ys

/-- Python `list.sort(key=..., reverse=True)`: stable descending sort. -/
def sortDescStable {α : Type} (key : α → ℚ) : List α → List α
  | [] => []
  | x :: xs => insertDesc key x (sortDescStable key xs)

/-- The `sorted_results` list of lines 160-176. -/
def rank_results (rag_results : List Place) : List (Place × ℚ) :=
  let max_results := min rag_results.length 10
  let scored := ((rag_results.take max_results).enum).map (fun p =>
    let score := score_of_result p.2
    (p.2, score * position_weight p.1))
  sortDescStable (fun pr => pr.2) scored

/-- The per-result relevance stars of line 181. -/
def relevance_indicator (score : ℚ) : String :=
  if score > (4 / 5 : ℚ) then "⭐⭐⭐" else if score > (1 / 2 : ℚ) then "⭐⭐" else "⭐"

/-- Truthiness of `d.get(k)` for a feature dictionary. -/
def featTruthy (d : List (String × Bool)) (k : String) : Bool :=
  (assocFind d k).getD false

/-- The per-result block appended to `top_context` (lines 182-191). -/
def place_block (r : Place) (score : ℚ) : String :=
  "\n                Name: " ++ r.name ++ " " ++ relevance_indicator score ++
  "\n                Category: " ++ r.category ++
  "\n                Description: " ++ r.text ++
  "\n                Has terrace: " ++ (if featTruthy r.features ("has_terrace") then "Yes" else "No") ++
  "\n                Sea view: " ++ (if featTruthy r.features ("sea_view") then "Yes" else "No") ++
  "\n                Booking available: " ++ (if r.has_booking then "Yes" else "No") ++
  "\n                Email: " ++ (if r.email = "" then "Unknown" else r.email) ++
  "\n                ---\n                "

/-- Lines 179-204: compose the context block over the ranked results and
append the feature-match summary when any feature was required. -/
def build_top_context (sorted_results : List (Place × ℚ))
    (required_features : List (String × Bool)) : String :=
  let ctx := sorted_results.foldl (fun acc pr => acc ++ place_block pr.1 pr.2)
    "You have the following structured information about places in Cadaqués:\n"
  let feature_summary :=
    (if featTruthy required_features ("has_terrace") then ["with terrace"] else []) ++
    (if featTruthy required_features ("sea_view") then ["with sea view"] else []) ++
    (if featTruthy required_features ("booking") then ["with booking available"] else [])
  if feature_summary.isEmpty then ctx
  else ctx ++ "\nThere are " ++ toString sorted_results.length ++ " places " ++
    String.intercalate (", ") feature_summary ++ " in Cadaqués."

/-- Lines 217-223: the final reply text. -/
def compose_response (gpt_response catalan_proverb english_tr translated_tr
    detected_lang : String) : String :=
  let base := gpt_response ++ "\n\n😺 Refrany: " ++ catalan_proverb
  if detected_lang = "en" then base ++ "\n🌟 Translation: " ++ english_tr
  else if detected_lang = "ca" then base ++ "\n🌟 Traducció (EN): " ++ english_tr
  else
    base ++ "\n🌟 " ++ ((assocFind TRANSLATION_LABELS detected_lang).getD ("Translation")) ++
    ": " ++ translated_tr

/-- The collaborators reached from `process_request_async`, each modelled
at its call boundary as a function that can return or raise. -/
structure ChatEnv where
  track_session : String → String → Except PyErr Unit
  analyze_sentiment : String → Except PyErr String
  langdetect : String → Except PyErr String
  kwTable : List (String × List String)
  dialogEnv : Dialogs.DialogEnv
  dialogStore : Dialogs.Store
  ragCache : String × List (String × Bool) → Option (List Place)
  ragEngine : Nat → Except PyErr (List SourceNode)
  get_chatgpt_response : String → String → String → Except PyErr String
  get_proverb_by_sentiment : String → String → Except PyErr (String × String)
  translate_text : String → String → Except PyErr String

/-- The body of the `try` block of `process_request_async` (lines 122-225),
in the order the futures are resolved by the source; an exception of any
collaborator call propagates out of the body. -/
def process_request_body (env : ChatEnv) (user_input session_id : String)
    (detected_language : Option String) : Except PyErr String :=
  match env.track_session session_id user_input with
  | Except.error e => Except.error e
  | Except.ok _ =>
    let detected_lang := resolve_language env.langdetect user_input detected_language
    match env.analyze_sentiment user_input with
    | Except.error e => Except.error e
    | Except.ok sentiment =>
      if contains_restaurant_trigger env.kwTable user_input detected_lang then
        Except.ok (handle_restaurant_dialog env.dialogEnv env.dialogStore
          user_input session_id detected_lang).1
      else
        let required_features := extract_required_features user_input detected_lang
        let rag_results := query_places_model env.ragCache env.ragEngine
          user_input required_features
        let sorted_results := rank_results rag_results
        let top_context := build_top_context sorted_results required_features
        match env.get_chatgpt_response user_input detected_lang top_context with
        | Except.error e => Except.error e
        | Except.ok gpt_response =>
          match env.get_proverb_by_sentiment sentiment user_input with
          | Except.error e => Except.error e
          | Except.ok proverb =>
            match (if (["en", "ca"] : List String).contains detected_lang then
                Except.ok proverb.2
              else env.translate_text proverb.2 detected_lang) with
            | Except.error e => Except.error e
            | Except.ok translated =>
              Except.ok (compose_response gpt_response proverb.1 proverb.2
                translated detected_lang)

/-- The fixed fallback of the outermost handler (line 228). -/
def chat_fallback : String :=
  "Meow... Something went wrong with my whiskers. Try again later! 🐱"

/-- `process_request_async(user_input, session_id, detected_language)`:
empty input raises ValueError before the `try` block; the sanitized input
feeds the body, whose every failure is converted to the fixed fallback. -/
def process_request_async (env : ChatEnv) (user_input session_id : String)
    (detected_language : Option String) : Except PyErr String :=
  if user_input = "" then Except.error PyErr.valueError
  else
    let sanitized := sanitize_input user_input
    match process_request_body env sanitized session_id detected_language with
    | Except.ok r => Except.ok r
    | Except.error _ => Except.ok chat_fallback

end ChatService

namespace Cache

open Dialogs (assocFind)

/-- Modelled from the spec: the Result Cache backing `rag_query_cache` is
`cachetools.TTLCache(maxsize=200, ttl=1800)`, whose implementation is not
part of this repository.  Following §3 and §4.1: entries carry an
insertion timestamp; an entry is never returned once `now > insertion +
ttl`; insertion beyond the size bound evicts the oldest surviving entry
first.  Entries are kept oldest-first. -/
structure TTLCacheM (V : Type) where
  maxsize : Nat
  ttl : Nat
  entries : List (String × V × Nat)

/-- `get(key)` at time `now`: a fresh matching entry or a miss. -/
def TTLCacheM.get {V : Type} (c : TTLCacheM V) (now : Nat) (k : String) : Option V :=
  match c.entries.find? (fun e => e.1 = k) with
  | some e => if now ≤ e.2.2 + c.ttl then some e.2.1 else none
  | none => none

/-- `put(key, value)` at time `now`: replace any entry for the key, append
the new entry as youngest, and evict oldest-first down to the size bound. -/
def TTLCacheM.put {V : Type} (c : TTLCacheM V) (now : Nat) (k : String) (v : V) :
    TTLCacheM V :=
  let kept := c.entries.filter (fun e => e.1 ≠ k)
  let appended := kept ++ [(k, v, now)]
  { c with entries := appended.drop (appended.length - c.maxsize) }

/-- The `rag_query_cache` instance of restaurant_service.py line 14. -/
def rag_query_cache {V : Type} : TTLCacheM V :=
  { maxsize := 200, ttl := 1800, entries := [] }

end Cache

/-! ## Helper lemmas -/

namespace Dialogs

theorem assocFind_assocSet_self {κ ν : Type} [DecidableEq κ]
    (l : List (κ × ν)) (k : κ) (v : ν) :
    assocFind (assocSet l k v) k = some v := by
  induction l with
  | nil => simp [assocSet, assocFind, List.find?]
  | cons p rest ih =>
    by_cases hk : p.1 = k
    · simp [assocSet, hk, assocFind, List.find?]
    · simp only [assocSet, hk, if_false]
      simp only [assocFind, List.find?, decide_eq_false hk] at ih ⊢
      exact ih

theorem assocFind_assocSet_ne {κ ν : Type} [DecidableEq κ]
    (l : List (κ × ν)) (k k' : κ) (v : ν) (h : k' ≠ k) :
    assocFind (assocSet l k v) k' = assocFind l k' := by
  have hkk : ¬ (k = k') := fun hh => h hh.symm
  induction l with
  | nil => simp [assocSet, assocFind, List.find?, decide_eq_false hkk]
  | cons p rest ih =>
    by_cases hk : p.1 = k
    · simp [assocSet, hk, assocFind, List.find?, decide_eq_false hkk]
    · simp only [assocSet, hk, if_false]
      cases hpk : decide (p.1 = k') with
      | true => simp [assocFind, List.find?, hpk]
      | false =>
        simp only [assocFind, List.find?, hpk] at ih ⊢
        exact ih

theorem assocFind_assocSet {κ ν : Type} [DecidableEq κ]
    (l : List (κ × ν)) (k k' : κ) (v : ν) :
    assocFind (assocSet l k v) k' = if k' = k then some v else assocFind l k' := by
  by_cases h : k' = k
  · subst h; simp [assocFind_assocSet_self]
  · simp [h, assocFind_assocSet_ne l k k' v h]

end Dialogs

/-- `handle_restaurant_dialog` always takes the generic-exception branch:
the three-positional-argument call of the two-parameter `get_next_step`
raises TypeError before any engine code runs. -/
theorem RestaurantService.handle_restaurant_dialog_eq
    (env : Dialogs.DialogEnv) (store : Dialogs.Store)
    (user_input session_id lang : String) :
    RestaurantService.handle_restaurant_dialog env store user_input session_id lang =
      (RestaurantService.unavailable_reply, store) := rfl

/-! ## Claim C1 -/

/-- C1: for every user message, session id and language tag, the booking
hand-off `handle_restaurant_dialog` returns the fixed
`"currently unavailable"` fallback reply — never a script prompt — and
leaves the session store unchanged, because it invokes `get_next_step`
with three positional arguments while `get_next_step` takes two
parameters, so every invocation raises TypeError, which the enclosing
generic exception handler converts to the fixed reply. -/
theorem c1_handoff_always_unavailable
    (env : Dialogs.DialogEnv) (store : Dialogs.Store)
    (user_input session_id lang : String) :
    RestaurantService.handle_restaurant_dialog env store user_input session_id lang =
      (RestaurantService.unavailable_reply, store) := rfl

/-! ## Claim C6 -/

/-- The filtering rule as §3/§8 of the specification state it: keep
exactly the nodes whose feature flags carry the required value for every
required key. -/
def RestaurantService.spec_required_filter
    (required_features : List (String × Bool)) (nodes : List RestaurantService.SourceNode) :
    List RestaurantService.Place :=
  (nodes.filter (fun n => required_features.all
    (fun kv => RestaurantService.featuresGet n kv.1 == some kv.2))).map
    RestaurantService.mkPlace

theorem RestaurantService.keepNode_eq
    (required_features : List (String × Bool)) (n : RestaurantService.SourceNode) :
    RestaurantService.keepNode required_features n =
      required_features.all (fun kv => RestaurantService.featuresGet n kv.1 == some kv.2) := by
  unfold RestaurantService.keepNode
  induction required_features with
  | nil => rfl
  | cons kv rest ih =>
    simp only [List.any_cons, List.all_cons, Bool.not_or, bne, Bool.not_not] at ih ⊢
    rw [ih]

/-- C6: in `query_places`, a retrieval result is excluded from the
returned list if and only if some key of `required_features` disagrees
with the result's feature flags (a missing flag counts as disagreement),
and a result is never excluded on account of a feature absent from
`required_features`: the returned list is exactly the nodes agreeing on
every required key, and membership in the kept set inspects only the keys
of `required_features`. -/
theorem c6_required_feature_filter
    (required_features : List (String × Bool))
    (nodes : List RestaurantService.SourceNode) :
    RestaurantService.query_places_results required_features nodes =
      RestaurantService.spec_required_filter required_features nodes ∧
    (∀ n, n ∈ nodes.filter (RestaurantService.keepNode required_features) ↔
      n ∈ nodes ∧ ∀ kv ∈ required_features,
        RestaurantService.featuresGet n kv.1 = some kv.2) := by
  constructor
  · unfold RestaurantService.query_places_results RestaurantService.spec_required_filter
    rw [List.filter_congr (fun n _ => RestaurantService.keepNode_eq required_features n)]
  · intro n
    rw [List.mem_filter, RestaurantService.keepNode_eq]
    simp [List.all_eq_true]

/-! ## Claim C10 -/

/-- C10: result-cache round-trip.  Storing `v` under `k` at time `now` and
looking `k` up at a later time before the time-to-live has elapsed returns
`v`; looking it up at any time after the time-to-live has elapsed is a
miss, with no explicit eviction needed. -/
theorem c10_cache_roundtrip {V : Type} (c : Cache.TTLCacheM V)
    (now now' : Nat) (k : String) (v : V) (hmax : 0 < c.maxsize) :
    (now' < now + c.ttl → (c.put now k v).get now' k = some v) ∧
    (now + c.ttl < now' → (c.put now k v).get now' k = none) := by
  have hfind : ((c.put now k v).entries).find? (fun e => e.1 = k) = some (k, v, now) := by
    have aux : ∀ (kept : List (String × V × Nat)),
        (∀ e ∈ kept, e.1 ≠ k) →
        ((kept ++ [(k, v, now)]).drop ((kept ++ [(k, v, now)]).length - c.maxsize)).find?
          (fun e => e.1 = k) = some (k, v, now) := by
      intro kept hk
      have hlen : (kept ++ [(k, v, now)]).length = kept.length + 1 := by simp
      have hdrop : (kept ++ [(k, v, now)]).length - c.maxsize ≤ kept.length := by omega
      rw [List.drop_append_of_le_length hdrop]
      have hnone : (kept.drop ((kept ++ [(k, v, now)]).length - c.maxsize)).find?
          (fun e => e.1 = k) = none := by
        rw [List.find?_eq_none]
        intro e he
        have := hk e (List.mem_of_mem_drop he)
        simpa using this
      rw [List.find?_append, hnone]
      simp [List.find?]
    exact aux (c.entries.filter (fun e => e.1 ≠ k))
      (fun e he => by simpa using List.of_mem_filter he)
  have httl : (c.put now k v).ttl = c.ttl := rfl
  constructor
  · intro hlt
    unfold Cache.TTLCacheM.get
    rw [hfind, httl]
    show (if now' ≤ now + c.ttl then some v else none) = some v
    rw [if_pos (Nat.le_of_lt hlt)]
  · intro hgt
    unfold Cache.TTLCacheM.get
    rw [hfind, httl]
    show (if now' ≤ now + c.ttl then some v else none) = none
    rw [if_neg (by omega : ¬ now' ≤ now + c.ttl)]

/-! ## Dialog engine lemmas -/

namespace Dialogs

/-- The transcript currently stored for a session (empty when absent). -/
def storeDialog (store : Store) (session_id : String) : List DialogEntry :=
  match assocFind store session_id with
  | some st => st.dialog
  | none => []

theorem emit_reply_step0 (store : Store) (session_id lang : String)
    (st : SessionState) (h0 : st.current_step = 0) :
    emit_reply store session_id lang st =
      (Except.ok (renderRaw (msgGet ask_people.message lang)),
       assocSet store session_id
         { st with dialog := st.dialog ++
             [DialogEntry.bot (renderRaw (msgGet ask_people.message lang))] }) := by
  rcases st with ⟨cs, d, dl, lg⟩
  have h0' : cs = 0 := h0
  subst h0'
  rfl

theorem body_step0 (env : DialogEnv) (store : Store)
    (session_id user_input lang : String) (st : SessionState)
    (h0 : st.current_step = 0) :
    get_next_step_body env store session_id user_input lang st =
      (Except.ok (renderRaw (msgGet ask_people.message lang)),
       assocSet store session_id
         { st with dialog := (st.dialog ++ [DialogEntry.user (pyStrip user_input)]) ++
             [DialogEntry.bot (renderRaw (msgGet ask_people.message lang))] }) := by
  rcases st with ⟨cs, d, dl, lg⟩
  have h0' : cs = 0 := h0
  subst h0'
  rfl

theorem get_next_step_eq_body (env : DialogEnv) (store : Store)
    (session_id user_input : String) (st : SessionState)
    (hfind : assocFind store session_id = some st) :
    get_next_step env store session_id user_input =
      get_next_step_body env store session_id user_input
        (resolve_dialog_lang env user_input) st := by
  unfold get_next_step
  rw [hfind]

theorem get_next_step_step0 (env : DialogEnv) (store : Store)
    (session_id user_input : String) (st : SessionState)
    (hfind : assocFind store session_id = some st) (h0 : st.current_step = 0) :
    get_next_step env store session_id user_input =
      (Except.ok (renderRaw (msgGet ask_people.message (resolve_dialog_lang env user_input))),
       assocSet store session_id
         { st with dialog := (st.dialog ++ [DialogEntry.user (pyStrip user_input)]) ++
             [DialogEntry.bot (renderRaw (msgGet ask_people.message
               (resolve_dialog_lang env user_input)))] }) := by
  unfold get_next_step
  rw [hfind]
  exact body_step0 env store session_id user_input _ st h0

theorem get_next_step_new (env : DialogEnv) (store : Store)
    (session_id user_input : String)
    (hfind : assocFind store session_id = none) :
    get_next_step env store session_id user_input =
      (Except.ok (renderRaw (msgGet ask_people.message (resolve_dialog_lang env user_input))),
       assocSet (assocSet store session_id
           { current_step := 0, data := [], dialog := [],
             lang := resolve_dialog_lang env user_input }) session_id
         { current_step := 0, data := [],
           dialog := [DialogEntry.user (pyStrip user_input),
             DialogEntry.bot (renderRaw (msgGet ask_people.message
               (resolve_dialog_lang env user_input)))],
           lang := resolve_dialog_lang env user_input }) := by
  unfold get_next_step
  rw [hfind]
  exact body_step0 env _ session_id user_input _ _ rfl

/-- All sessions of a store sit at step 0. -/
def StepZero (s : Store) : Prop :=
  ∀ session_id st, assocFind s session_id = some st → st.current_step = 0

theorem stepZero_preserved (env : DialogEnv) (s : Store)
    (session_id user_input : String) (h : StepZero s) :
    StepZero (get_next_step env s session_id user_input).2 := by
  cases hfind : assocFind s session_id with
  | some st =>
    rw [get_next_step_step0 env s session_id user_input st hfind
      (h session_id st hfind)]
    intro sid' st' hfind'
    dsimp only at hfind'
    rw [assocFind_assocSet] at hfind'
    by_cases he : sid' = session_id
    · rw [if_pos he] at hfind'
      cases hfind'
      exact h session_id st hfind
    · rw [if_neg he] at hfind'
      exact h sid' st' hfind'
  | none =>
    rw [get_next_step_new env s session_id user_input hfind]
    intro sid' st' hfind'
    dsimp only at hfind'
    rw [assocFind_assocSet] at hfind'
    by_cases he : sid' = session_id
    · rw [if_pos he] at hfind'
      cases hfind'
      rfl
    · rw [if_neg he, assocFind_assocSet, if_neg he] at hfind'
      exact h sid' st' hfind'

/-- The stores reachable from process start through calls of
`get_next_step`: `SESSION_STATE` starts empty and is mutated only by the
engine (with arbitrary collaborator behavior and inputs per call). -/
inductive ReachableStore : Store → Prop where
  | init : ReachableStore []
  | step (env : DialogEnv) (session_id user_input : String) {s : Store} :
      ReachableStore s → ReachableStore (get_next_step env s session_id user_input).2

theorem reachable_stepZero {s : Store} (h : ReachableStore s) : StepZero s := by
  induction h with
  | init => intro sid st hfind; simp [assocFind, List.find?] at hfind
  | step env sid input hs ih => exact stepZero_preserved env _ sid input ih

end Dialogs

/-! ## Claim C2 -/

/-- C2: across every sequence of calls of `get_next_step` starting from
the empty session store, the step index of every session is monotonically
non-decreasing over a call and never exceeds the script length (3): over
any single call from a reachable store, no session's `current_step`
decreases, and every session of the resulting store has
`current_step ≤ script.length`.  (In fact reachable sessions always sit
at step 0: the advance code runs only when `step_idx > 0`.) -/
theorem c2_step_index_monotone_bounded (env : Dialogs.DialogEnv)
    (s : Dialogs.Store) (session_id user_input : String)
    (hreach : Dialogs.ReachableStore s) :
    (∀ sid st st', Dialogs.assocFind s sid = some st →
        Dialogs.assocFind (Dialogs.get_next_step env s session_id user_input).2 sid =
          some st' →
        st.current_step ≤ st'.current_step) ∧
    (∀ sid st', Dialogs.assocFind
          (Dialogs.get_next_step env s session_id user_input).2 sid = some st' →
        st'.current_step ≤ Dialogs.script.length) := by
  constructor
  · intro sid st st' hfind hfind'
    rw [Dialogs.reachable_stepZero hreach sid st hfind]
    exact Nat.zero_le _
  · intro sid st' hfind'
    have hz := Dialogs.reachable_stepZero
      (Dialogs.ReachableStore.step env session_id user_input hreach) sid st' hfind'
    rw [hz]
    exact Nat.zero_le _

/-- The extractor environment in which both slot extractors answer
`"unknown"` and the detector reports English. -/
def Dialogs.dialogEnvUnknown : Dialogs.DialogEnv :=
  { detectLang := fun _ => Except.ok ("en")
    extractPeople := fun _ _ => "unknown"
    extractTime := fun _ _ => "unknown" }

/-- The session state produced by the single call of the C2 witness. -/
def Dialogs.c2WitState : Dialogs.SessionState :=
  { current_step := 0, data := []
    dialog := [Dialogs.DialogEntry.user ("hello"),
      Dialogs.DialogEntry.bot ("How many people are you booking for?")]
    lang := "en" }

/-- C2 witness: one concrete call on the empty store; the created session
satisfies the bound. -/
theorem c2_step_index_monotone_bounded_witness :
    Dialogs.c2WitState.current_step ≤ Dialogs.script.length :=
  (c2_step_index_monotone_bounded Dialogs.dialogEnvUnknown [] ("s2") ("hello")
      Dialogs.ReachableStore.init).2 ("s2") Dialogs.c2WitState (by decide)

/-! ## Claim C3 -/

/-- C3: for a session whose previous step expects a `people` or `time`
slot, if the slot extractor returns `"unknown"` for the reply, the call
leaves the session's step index and slot map exactly as they were and
returns the prompt of that previous step in the resolved language —
the prompt previously emitted for it, verbatim (only the transcript gains
the user entry). -/
theorem c3_unknown_slot_is_frame (env : Dialogs.DialogEnv)
    (store : Dialogs.Store) (session_id user_input : String)
    (st : Dialogs.SessionState)
    (hfind : Dialogs.assocFind store session_id = some st)
    (hpos : 0 < st.current_step)
    (hlt : st.current_step - 1 < Dialogs.script.length)
    (hexp :
      ((Dialogs.script.get ⟨st.current_step - 1, hlt⟩).expect = some ("people") ∧
        env.extractPeople (pyStrip user_input)
          (Dialogs.resolve_dialog_lang env user_input) = "unknown") ∨
      ((Dialogs.script.get ⟨st.current_step - 1, hlt⟩).expect = some ("time") ∧
        env.extractTime (pyStrip user_input)
          (Dialogs.resolve_dialog_lang env user_input) = "unknown")) :
    Dialogs.get_next_step env store session_id user_input =
      (Except.ok (Dialogs.renderRaw (Dialogs.msgGet
          (Dialogs.script.get ⟨st.current_step - 1, hlt⟩).message
          (Dialogs.resolve_dialog_lang env user_input))),
       Dialogs.assocSet store session_id
         { st with dialog := st.dialog ++
             [Dialogs.DialogEntry.user (pyStrip user_input)] }) ∧
    ∀ st', Dialogs.assocFind
        (Dialogs.get_next_step env store session_id user_input).2 session_id =
        some st' →
      st'.current_step = st.current_step ∧ st'.data = st.data := by
  have heq : Dialogs.get_next_step env store session_id user_input =
      (Except.ok (Dialogs.renderRaw (Dialogs.msgGet
          (Dialogs.script.get ⟨st.current_step - 1, hlt⟩).message
          (Dialogs.resolve_dialog_lang env user_input))),
       Dialogs.assocSet store session_id
         { st with dialog := st.dialog ++
             [Dialogs.DialogEntry.user (pyStrip user_input)] }) := by
    rw [Dialogs.get_next_step_eq_body env store session_id user_input st hfind]
    unfold Dialogs.get_next_step_body
    dsimp only
    rw [if_pos hpos, dif_pos hlt]
    rcases hexp with ⟨he, hu⟩ | ⟨he, hu⟩
    · rw [if_pos he, if_neg (not_not_intro hu)]
    · have hne : ¬ ((Dialogs.script.get ⟨st.current_step - 1, hlt⟩).expect =
          some ("people")) := by
        rw [he]; decide
      rw [if_neg hne, if_pos he, if_neg (not_not_intro hu)]
  refine ⟨heq, ?_⟩
  intro st' hfind'
  rw [heq] at hfind'
  dsimp only at hfind'
  rw [Dialogs.assocFind_assocSet_self] at hfind'
  cases hfind'
  exact ⟨rfl, rfl⟩

/-- The one-session store of the C3 witness: session `"s1"` at step 1
(the previous step, `ask_people`, expects the `people` slot). -/
def Dialogs.c3Store : Dialogs.Store :=
  [("s1", { current_step := 1, data := [], dialog := [], lang := "en" })]

/-- C3 witness: a concrete call with the extractor answering `"unknown"`:
the step index and slot map are untouched and the `ask_people` prompt is
re-emitted verbatim. -/
theorem c3_unknown_slot_is_frame_witness :
    Dialogs.get_next_step Dialogs.dialogEnvUnknown Dialogs.c3Store ("s1") ("five") =
      (Except.ok ("How many people are you booking for?"),
       [(("s1" : String),
         ({ current_step := 1, data := [],
            dialog := [Dialogs.DialogEntry.user ("five")],
            lang := "en" } : Dialogs.SessionState))]) :=
  (c3_unknown_slot_is_frame Dialogs.dialogEnvUnknown Dialogs.c3Store ("s1") ("five")
    { current_step := 1, data := [], dialog := [], lang := "en" }
    (by decide) (by decide) (by decide)
    (Or.inl ⟨by decide, by decide⟩)).1

/-! ## Claim C9 -/

theorem Dialogs.emit_reply_cases (store : Dialogs.Store)
    (session_id lang : String) (st : Dialogs.SessionState) :
    (∃ m, Dialogs.emit_reply store session_id lang st =
      (Except.ok m, Dialogs.assocSet store session_id
        { st with dialog := st.dialog ++ [Dialogs.DialogEntry.bot m] })) ∨
    (∃ e, Dialogs.emit_reply store session_id lang st =
      (Except.error e, Dialogs.assocSet store session_id st)) := by
  unfold Dialogs.emit_reply
  by_cases h : st.current_step ≥ Dialogs.script.length
  · rw [dif_pos h]
    left
    exact ⟨_, rfl⟩
  · rw [dif_neg h]
    dsimp only
    cases hE : (if (Dialogs.script.get ⟨st.current_step, by omega⟩).id = "confirm" then
        match Dialogs.renderFormat (Dialogs.msgGet
            (Dialogs.script.get ⟨st.current_step, by omega⟩).message lang) st.data with
        | Except.ok s => Except.ok s
        | Except.error PyErr.keyError =>
          Except.ok (Dialogs.renderRaw ((Dialogs.assocFind
            (Dialogs.script.get ⟨st.current_step, by omega⟩).message ("en")).getD []))
        | Except.error e => Except.error e
      else Except.ok (Dialogs.renderRaw (Dialogs.msgGet
        (Dialogs.script.get ⟨st.current_step, by omega⟩).message lang))) with
    | ok m =>
      left
      exact ⟨m, rfl⟩
    | error e =>
      right
      exact ⟨e, rfl⟩

theorem Dialogs.emit_reply_ok_dialog (store : Dialogs.Store)
    (session_id lang reply : String) (st₂ : Dialogs.SessionState)
    (hok : (Dialogs.emit_reply store session_id lang st₂).1 = Except.ok reply) :
    Dialogs.assocFind (Dialogs.emit_reply store session_id lang st₂).2 session_id =
      some { st₂ with dialog := st₂.dialog ++ [Dialogs.DialogEntry.bot reply] } := by
  rcases Dialogs.emit_reply_cases store session_id lang st₂ with ⟨m, hm⟩ | ⟨e, hm⟩
  · rw [hm] at hok ⊢
    dsimp only at hok ⊢
    cases hok
    exact Dialogs.assocFind_assocSet_self _ _ _
  · rw [hm] at hok
    dsimp only at hok
    exact Except.noConfusion hok

/-- C9 counterexample: a call whose slot extraction returns `"unknown"`
appends only the user entry to the transcript: for session `"s9"` at step
1, the call returns the re-emitted `ask_people` prompt but the stored
transcript is `[user "four"]` — it grew by one entry, not by a user entry
plus a bot entry carrying the reply. -/
theorem c9_counterexample_unknown_no_bot_entry :
    (Dialogs.get_next_step Dialogs.dialogEnvUnknown
        [("s9", { current_step := 1, data := [], dialog := [], lang := "en" })]
        ("s9") ("four")).1 =
      Except.ok ("How many people are you booking for?") ∧
    Dialogs.assocFind (Dialogs.get_next_step Dialogs.dialogEnvUnknown
        [("s9", { current_step := 1, data := [], dialog := [], lang := "en" })]
        ("s9") ("four")).2 ("s9") =
      some ({ current_step := 1, data := [], dialog := [Dialogs.DialogEntry.user ("four")], lang := "en" }) ∧
    ¬ ([Dialogs.DialogEntry.user ("four")] : List Dialogs.DialogEntry).length =
        ([] : List Dialogs.DialogEntry).length + 2 := by
  refine ⟨by decide, by decide, by decide⟩

/-- The call hits the failed-slot-extraction branch of lines 59-73: the
session exists at a positive step index, its previous step expects a
`people` or `time` slot, and the corresponding extractor answers
`"unknown"` on the stripped input at the resolved language. -/
def Dialogs.unknownExtraction (env : Dialogs.DialogEnv) (store : Dialogs.Store)
    (session_id user_input : String) : Prop :=
  ∃ st, Dialogs.assocFind store session_id = some st ∧
    0 < st.current_step ∧
    ∃ h : st.current_step - 1 < Dialogs.script.length,
      ((Dialogs.script.get ⟨st.current_step - 1, h⟩).expect = some ("people") ∧
        env.extractPeople (pyStrip user_input)
          (Dialogs.resolve_dialog_lang env user_input) = "unknown") ∨
      ((Dialogs.script.get ⟨st.current_step - 1, h⟩).expect = some ("time") ∧
        env.extractTime (pyStrip user_input)
          (Dialogs.resolve_dialog_lang env user_input) = "unknown")

/-- C9 amended: every call of `get_next_step` that returns a reply appends
the user's raw message to the session transcript; when the call hits a
failed slot extraction (`"unknown"`), the re-emitted prompt is returned
without being recorded and the transcript grows by the user entry alone,
and in every other case a bot entry equal to the returned reply is also
appended. -/
theorem c9_transcript_growth (env : Dialogs.DialogEnv) (store : Dialogs.Store)
    (session_id user_input reply : String)
    (hok : (Dialogs.get_next_step env store session_id user_input).1 =
      Except.ok reply) :
    ∃ st', Dialogs.assocFind
        (Dialogs.get_next_step env store session_id user_input).2 session_id =
        some st' ∧
      (Dialogs.unknownExtraction env store session_id user_input →
        st'.dialog = Dialogs.storeDialog store session_id ++
          [Dialogs.DialogEntry.user (pyStrip user_input)]) ∧
      (¬ Dialogs.unknownExtraction env store session_id user_input →
        st'.dialog = Dialogs.storeDialog store session_id ++
          [Dialogs.DialogEntry.user (pyStrip user_input),
           Dialogs.DialogEntry.bot reply]) := by
  cases hfind : Dialogs.assocFind store session_id with
  | none =>
    have hnotu : ¬ Dialogs.unknownExtraction env store session_id user_input := by
      rintro ⟨st'', hfind'', -, -⟩
      exact Option.noConfusion (hfind.symm.trans hfind'')
    have heq := Dialogs.get_next_step_new env store session_id user_input hfind
    rw [heq] at hok ⊢
    dsimp only at hok ⊢
    cases hok
    refine ⟨_, Dialogs.assocFind_assocSet_self _ _ _, ?_, ?_⟩
    · intro hu
      exact absurd hu hnotu
    · intro _
      simp [Dialogs.storeDialog, hfind]
  | some st =>
    have hsd : Dialogs.storeDialog store session_id = st.dialog := by
      simp [Dialogs.storeDialog, hfind]
    cases h0 : st.current_step with
    | zero =>
      have hnotu : ¬ Dialogs.unknownExtraction env store session_id user_input := by
        rintro ⟨st'', hfind'', hpos'', -⟩
        have hst : st'' = st := Option.some.inj (hfind''.symm.trans hfind)
        subst hst
        omega
      have heq := Dialogs.get_next_step_step0 env store session_id user_input st hfind h0
      rw [heq] at hok ⊢
      dsimp only at hok ⊢
      cases hok
      refine ⟨_, Dialogs.assocFind_assocSet_self _ _ _, ?_, ?_⟩
      · intro hu
        exact absurd hu hnotu
      · intro _
        simp [hsd]
    | succ cs =>
      rw [Dialogs.get_next_step_eq_body env store session_id user_input st hfind]
        at hok ⊢
      unfold Dialogs.get_next_step_body at hok ⊢
      dsimp only at hok ⊢
      rw [if_pos (by omega : st.current_step > 0)] at hok ⊢
      by_cases hlt : st.current_step - 1 < Dialogs.script.length
      · rw [dif_pos hlt] at hok ⊢
        by_cases hpe : (Dialogs.script.get ⟨st.current_step - 1, hlt⟩).expect =
            some ("people")
        · rw [if_pos hpe] at hok ⊢
          by_cases hu : env.extractPeople (pyStrip user_input)
              (Dialogs.resolve_dialog_lang env user_input) ≠ "unknown"
          · have hnotu : ¬ Dialogs.unknownExtraction env store session_id
                user_input := by
              rintro ⟨st'', hfind'', -, h'', hdisj⟩
              have hst : st'' = st := Option.some.inj (hfind''.symm.trans hfind)
              subst hst
              rcases hdisj with ⟨-, hu''⟩ | ⟨hexp'', -⟩
              · exact hu hu''
              · exact absurd (hexp''.symm.trans hpe) (by decide)
            rw [if_pos hu] at hok ⊢
            refine ⟨_, Dialogs.emit_reply_ok_dialog _ _ _ _ _ hok, ?_, ?_⟩
            · intro hu'
              exact absurd hu' hnotu
            · intro _
              simp [hsd]
          · have hunk : Dialogs.unknownExtraction env store session_id user_input :=
              ⟨st, hfind, by omega, hlt, Or.inl ⟨hpe, not_not.mp hu⟩⟩
            rw [if_neg hu] at hok ⊢
            dsimp only at hok ⊢
            cases hok
            refine ⟨_, Dialogs.assocFind_assocSet_self _ _ _, ?_, ?_⟩
            · intro _
              simp [hsd]
            · intro hn
              exact absurd hunk hn
        · rw [if_neg hpe] at hok ⊢
          by_cases hte : (Dialogs.script.get ⟨st.current_step - 1, hlt⟩).expect =
              some ("time")
          · rw [if_pos hte] at hok ⊢
            by_cases hu : env.extractTime (pyStrip user_input)
                (Dialogs.resolve_dialog_lang env user_input) ≠ "unknown"
            · have hnotu : ¬ Dialogs.unknownExtraction env store session_id
                  user_input := by
                rintro ⟨st'', hfind'', -, h'', hdisj⟩
                have hst : st'' = st := Option.some.inj (hfind''.symm.trans hfind)
                subst hst
                rcases hdisj with ⟨hexp'', -⟩ | ⟨-, hu''⟩
                · exact hpe hexp''
                · exact hu hu''
              rw [if_pos hu] at hok ⊢
              refine ⟨_, Dialogs.emit_reply_ok_dialog _ _ _ _ _ hok, ?_, ?_⟩
              · intro hu'
                exact absurd hu' hnotu
              · intro _
                simp [hsd]
            · have hunk : Dialogs.unknownExtraction env store session_id
                  user_input :=
                ⟨st, hfind, by omega, hlt, Or.inr ⟨hte, not_not.mp hu⟩⟩
              rw [if_neg hu] at hok ⊢
              dsimp only at hok ⊢
              cases hok
              refine ⟨_, Dialogs.assocFind_assocSet_self _ _ _, ?_, ?_⟩
              · intro _
                simp [hsd]
              · intro hn
                exact absurd hunk hn
          · have hnotu : ¬ Dialogs.unknownExtraction env store session_id
                user_input := by
              rintro ⟨st'', hfind'', -, h'', hdisj⟩
              have hst : st'' = st := Option.some.inj (hfind''.symm.trans hfind)
              subst hst
              rcases hdisj with ⟨hexp'', -⟩ | ⟨hexp'', -⟩
              · exact hpe hexp''
              · exact hte hexp''
            rw [if_neg hte] at hok ⊢
            refine ⟨_, Dialogs.emit_reply_ok_dialog _ _ _ _ _ hok, ?_, ?_⟩
            · intro hu'
              exact absurd hu' hnotu
            · intro _
              simp [hsd]
      · rw [dif_neg hlt] at hok
        dsimp only at hok
        exact Except.noConfusion hok

/-- C9 amended witness: a concrete successful call on a fresh session;
the call is not a failed extraction, so the transcript gains the user
entry and the bot entry of the reply. -/
theorem c9_transcript_growth_witness :
    ∃ st', Dialogs.assocFind
        (Dialogs.get_next_step Dialogs.dialogEnvUnknown [] ("s3") ("hey")).2
        ("s3") = some st' ∧
      (Dialogs.unknownExtraction Dialogs.dialogEnvUnknown [] ("s3") ("hey") →
        st'.dialog = Dialogs.storeDialog [] ("s3") ++
          [Dialogs.DialogEntry.user (pyStrip ("hey"))]) ∧
      (¬ Dialogs.unknownExtraction Dialogs.dialogEnvUnknown [] ("s3") ("hey") →
        st'.dialog = Dialogs.storeDialog [] ("s3") ++
          [Dialogs.DialogEntry.user (pyStrip ("hey")),
           Dialogs.DialogEntry.bot ("How many people are you booking for?")]) :=
  c9_transcript_growth Dialogs.dialogEnvUnknown [] ("s3") ("hey")
    ("How many people are you booking for?") (by decide)

/-! ## Claim C5 -/

/-- C5: `contains_restaurant_trigger` returns True exactly when some
keyword of the given language occurs in the lowercased text and is listed
for no other configured language.  Consequently, when every keyword of the
language occurring in the text is shared with another language the result
is False, and a keyword present in two languages never causes the
hand-off to trigger. -/
theorem c5_trigger_needs_unique_keyword
    (table : List (String × List String)) (text lang : String) :
    RestaurantService.contains_restaurant_trigger table text lang = true ↔
      ∃ keyword ∈ (Dialogs.assocFind table lang).getD [],
        substrOf keyword (lowerStr text) = true ∧
        ∀ p ∈ table, p.1 ≠ lang → keyword ∉ p.2 := by
  unfold RestaurantService.contains_restaurant_trigger
  rw [List.any_eq_true]
  constructor
  · rintro ⟨kw, hmem, hcond⟩
    rw [Bool.and_eq_true, Bool.not_eq_true', List.any_eq_false] at hcond
    obtain ⟨hsub, hnot⟩ := hcond
    refine ⟨kw, hmem, hsub, ?_⟩
    intro p hp hne hka
    have h2 := hnot p hp
    simp [List.contains, hne, hka] at h2
  · rintro ⟨kw, hmem, hsub, huniq⟩
    refine ⟨kw, hmem, ?_⟩
    rw [Bool.and_eq_true, Bool.not_eq_true', List.any_eq_false]
    refine ⟨hsub, ?_⟩
    intro p hp
    by_cases hpe : p.1 = lang
    · simp [hpe]
    · simp [List.contains, hpe, huniq p hp hpe]

/-! ## Claim C4 -/

/-- `positionDecay = 1 − 0.05×index`, as the specification words it. -/
def ChatService.spec_position_decay (index : Nat) : ℚ := 1 - (5 / 100) * index

/-- The ranking key the specification claims: the retriever-reported score
of the result at original index `i`, times the decay of that index. -/
def ChatService.spec_claim_product (nodes : List RestaurantService.SourceNode)
    (i : Nat) : ℚ :=
  (((nodes.get? i).bind RestaurantService.SourceNode.score).getD 0) *
    ChatService.spec_position_decay i

/-- A retrieved node with only a score and a name, as the counterexample
uses it. -/
def ChatService.scoredNode (nm : String) (s : ℚ) : RestaurantService.SourceNode :=
  { score := some s
    text := nm
    meta := { name := some nm, category := none, direction := none,
              email := none, has_booking := none, features := none } }

/-- The two-node retrieval of the counterexample: retriever scores 0.1 and
0.9 in original order. -/
def ChatService.c4Nodes : List RestaurantService.SourceNode :=
  [ChatService.scoredNode ("A") (1 / 10), ChatService.scoredNode ("B") (9 / 10)]

theorem ChatService.insertDesc_of_not_lt {α : Type} (key : α → ℚ) (x : α)
    (l : List α) (h : ∀ y ∈ l, ¬ key x < key y) :
    ChatService.insertDesc key x l = x :: l := by
  cases l with
  | nil => rfl
  | cons y ys =>
    unfold ChatService.insertDesc
    rw [if_neg (h y (List.mem_cons_self y ys))]

theorem ChatService.sortDescStable_const_key {α : Type} (key : α → ℚ)
    (l : List α) (h : ∀ x ∈ l, key x = 0) :
    ChatService.sortDescStable key l = l := by
  induction l with
  | nil => rfl
  | cons x xs ih =>
    unfold ChatService.sortDescStable
    rw [ih (fun y hy => h y (List.mem_cons_of_mem x hy))]
    exact ChatService.insertDesc_of_not_lt key x xs (fun y hy => by
      rw [h x (List.mem_cons_self x xs), h y (List.mem_cons_of_mem x hy)]
      exact lt_irrefl 0)

theorem ChatService.map_snd_enumFrom {α : Type} (l : List α) :
    ∀ n, (List.enumFrom n l).map Prod.snd = l := by
  induction l with
  | nil => intro n; rfl
  | cons x xs ih => intro n; simp [List.enumFrom, ih]

theorem ChatService.rank_results_unsorted (rag_results : List RestaurantService.Place) :
    ChatService.rank_results rag_results =
      ((rag_results.take (min rag_results.length 10)).enum).map
        (fun p => (p.2, ChatService.score_of_result p.2 * ChatService.position_weight p.1)) := by
  unfold ChatService.rank_results
  refine ChatService.sortDescStable_const_key _ _ ?_
  intro pr hpr
  rw [List.mem_map] at hpr
  obtain ⟨p, _, rfl⟩ := hpr
  show ChatService.score_of_result p.2 * ChatService.position_weight p.1 = 0
  rw [ChatService.score_of_result, zero_mul]

theorem ChatService.rank_results_fst (rag_results : List RestaurantService.Place) :
    (ChatService.rank_results rag_results).map Prod.fst =
      rag_results.take (min rag_results.length 10) := by
  rw [ChatService.rank_results_unsorted, List.map_map]
  have heq : (Prod.fst ∘ fun p : Nat × RestaurantService.Place =>
      (p.2, ChatService.score_of_result p.2 * ChatService.position_weight p.1)) =
      Prod.snd := rfl
  rw [heq]
  exact ChatService.map_snd_enumFrom _ 0

theorem ChatService.rank_results_snd (rag_results : List RestaurantService.Place) :
    ∀ pr ∈ ChatService.rank_results rag_results, pr.2 = 0 := by
  intro pr hpr
  rw [ChatService.rank_results_unsorted, List.mem_map] at hpr
  obtain ⟨p, _, rfl⟩ := hpr
  show ChatService.score_of_result p.2 * ChatService.position_weight p.1 = 0
  rw [ChatService.score_of_result, zero_mul]

/-- C4 counterexample: with two retrieved results of retriever-reported
scores 0.1 and 0.9, the claimed products are 0.1×1.0 = 0.1 and
0.9×0.95 = 0.855, so the claim requires the second result placed before
the first; the composed order keeps the original order — the lower
product first — because the score the code reads is identically 0 (the
results of `query_places` are plain dictionaries without a `score`
attribute). -/
theorem c4_rank_counterexample :
    (ChatService.rank_results
        (RestaurantService.query_places_results [] ChatService.c4Nodes)).map Prod.fst =
      [RestaurantService.mkPlace (ChatService.scoredNode ("A") (1 / 10)),
       RestaurantService.mkPlace (ChatService.scoredNode ("B") (9 / 10))] ∧
    ChatService.spec_claim_product ChatService.c4Nodes 0 <
      ChatService.spec_claim_product ChatService.c4Nodes 1 := by
  constructor
  · rw [ChatService.rank_results_fst]
    rfl
  · show ((1 : ℚ) / 10) * ChatService.spec_position_decay 0 <
      ((9 : ℚ) / 10) * ChatService.spec_position_decay 1
    unfold ChatService.spec_position_decay
    norm_num

/-- C4 amended: the composed context block lists the filtered results in
their original retrieval order (truncated to at most 10); every product
`score × positionDecay` computed by the code is 0, because the results of
`query_places` are dictionaries that do not carry the retriever score and
`hasattr(r, 'score')` is False for them, so the stable sort leaves the
order unchanged. -/
theorem c4_rank_preserves_retrieval_order (rag_results : List RestaurantService.Place) :
    (ChatService.rank_results rag_results).map Prod.fst =
      rag_results.take (min rag_results.length 10) ∧
    ∀ pr ∈ ChatService.rank_results rag_results, pr.2 = 0 :=
  ⟨ChatService.rank_results_fst rag_results, ChatService.rank_results_snd rag_results⟩

/-! ## Claim C7 -/

/-- An external `langdetect.detect` stub for the C7 scenario; it is never
consulted for numeric-only input. -/
def LanguageService.c7LangDetect : String → Except PyErr String :=
  fun _ => Except.ok ("fr")

/-- C7 counterexample: in a conversation whose previous language is
Russian, the message `"1234"` makes the detector return the
`"same_as_before"` marker, but `process_request_async` resolves the
request language to the fallback `"en"` — not the previous language
`"ru"`: the marker is treated like any unsupported tag rather than
carrying the previous language forward. -/
theorem c7_marker_not_carried_forward :
    LanguageService.detect_language LanguageService.c7LangDetect ("1234") =
      "same_as_before" ∧
    ChatService.resolve_language LanguageService.c7LangDetect ("1234") none = "en" ∧
    ("en" : String) ≠ "ru" := by
  refine ⟨by decide, by decide, by decide⟩

/-- C7 amended: for numeric-only input the detector signals the
`"same_as_before"` marker, and the orchestrator maps the marker — like
any tag outside `SUPPORTED_LANGS` — to the default `"en"`; no previous
conversation language is consulted or carried forward. -/
theorem c7_numeric_input_falls_back_to_en
    (langdetect : String → Except PyErr String) (text : String)
    (h1 : ¬ pyStrip text = "")
    (h2 : isDigitStr (pyStrip text) = true)
    (h3 : LanguageService.EXCEPTION_WORDS.any
      (fun word => substrOf (lowerStr word) (lowerStr text)) = false) :
    LanguageService.detect_language langdetect text = "same_as_before" ∧
    ChatService.resolve_language langdetect text none = "en" := by
  have hdet : LanguageService.detect_language langdetect text = "same_as_before" := by
    unfold LanguageService.detect_language
    rw [if_neg h1, if_neg (by rw [h3]; exact Bool.false_ne_true), if_pos h2]
  refine ⟨hdet, ?_⟩
  unfold ChatService.resolve_language
  rw [hdet]
  decide

/-- C7 amended witness: the concrete numeric-only message `"1234"`. -/
theorem c7_numeric_input_falls_back_to_en_witness :
    LanguageService.detect_language LanguageService.c7LangDetect ("987") =
      "same_as_before" ∧
    ChatService.resolve_language LanguageService.c7LangDetect ("987") none = "en" :=
  c7_numeric_input_falls_back_to_en LanguageService.c7LangDetect ("987")
    (by decide) (by decide) (by decide)

/-! ## Claim C8 -/

theorem ChatService.compose_response_ne_empty
    (gpt_response catalan_proverb english_tr translated_tr detected_lang : String) :
    ChatService.compose_response gpt_response catalan_proverb english_tr
      translated_tr detected_lang ≠ "" := by
  unfold ChatService.compose_response
  have h0 : ("" : String).length = 0 := rfl
  have hA : 0 < ("\n\n😺 Refrany: " : String).length := by decide
  by_cases h1 : detected_lang = "en"
  · rw [if_pos h1]
    intro hEq
    have hlen := congrArg String.length hEq
    simp only [String.length_append] at hlen
    omega
  · rw [if_neg h1]
    by_cases h2 : detected_lang = "ca"
    · rw [if_pos h2]
      intro hEq
      have hlen := congrArg String.length hEq
      simp only [String.length_append] at hlen
      omega
    · rw [if_neg h2]
      intro hEq
      have hlen := congrArg String.length hEq
      simp only [String.length_append] at hlen
      omega

theorem ChatService.process_request_body_ok_ne_empty (env : ChatService.ChatEnv)
    (user_input session_id : String) (detected_language : Option String) (r : String)
    (hok : ChatService.process_request_body env user_input session_id
      detected_language = Except.ok r) :
    r ≠ "" := by
  unfold ChatService.process_request_body at hok
  cases htr : env.track_session session_id user_input with
  | error e => rw [htr] at hok; exact Except.noConfusion hok
  | ok u =>
    rw [htr] at hok
    dsimp only at hok
    cases hsent : env.analyze_sentiment user_input with
    | error e => rw [hsent] at hok; exact Except.noConfusion hok
    | ok sentiment =>
      rw [hsent] at hok
      dsimp only at hok
      by_cases htrig : RestaurantService.contains_restaurant_trigger env.kwTable user_input
          (ChatService.resolve_language env.langdetect user_input detected_language) =
          true
      · rw [if_pos htrig] at hok
        cases hok
        show RestaurantService.unavailable_reply ≠ ""
        decide
      · rw [if_neg htrig] at hok
        cases hgpt : env.get_chatgpt_response user_input
            (ChatService.resolve_language env.langdetect user_input detected_language)
            (ChatService.build_top_context
              (ChatService.rank_results (RestaurantService.query_places_model
                env.ragCache env.ragEngine user_input
                (RestaurantService.extract_required_features user_input
                  (ChatService.resolve_language env.langdetect user_input
                    detected_language))))
              (RestaurantService.extract_required_features user_input
                (ChatService.resolve_language env.langdetect user_input
                  detected_language))) with
        | error e => rw [hgpt] at hok; exact Except.noConfusion hok
        | ok gpt_response =>
          rw [hgpt] at hok
          dsimp only at hok
          cases hprov : env.get_proverb_by_sentiment sentiment user_input with
          | error e => rw [hprov] at hok; exact Except.noConfusion hok
          | ok proverb =>
            rw [hprov] at hok
            dsimp only at hok
            cases htrans : (if (["en", "ca"] : List String).contains
                (ChatService.resolve_language env.langdetect user_input
                  detected_language) then
                Except.ok proverb.2
              else env.translate_text proverb.2
                (ChatService.resolve_language env.langdetect user_input
                  detected_language)) with
            | error e => rw [htrans] at hok; exact Except.noConfusion hok
            | ok translated =>
              rw [htrans] at hok
              dsimp only at hok
              cases hok
              exact ChatService.compose_response_ne_empty _ _ _ _ _

/-- C8: for every non-empty string input, `process_request_async` never
propagates an exception: it returns a reply dictionary, the reply is
non-empty under every collaborator behavior (in particular with a
retriever that throws on every attempt, whose failures `query_places`
absorbs into an empty result list), and whenever the pipeline body
raises, the reply is the fixed language-agnostic fallback apology. -/
theorem c8_fallback_on_any_failure (env : ChatService.ChatEnv)
    (user_input session_id : String) (detected_language : Option String)
    (h : user_input ≠ "") :
    (∃ r, ChatService.process_request_async env user_input session_id
        detected_language = Except.ok r ∧ r ≠ "") ∧
    (∀ e, ChatService.process_request_body env
        (ChatService.sanitize_input user_input) session_id detected_language =
        Except.error e →
      ChatService.process_request_async env user_input session_id
        detected_language = Except.ok ChatService.chat_fallback) := by
  unfold ChatService.process_request_async
  rw [if_neg h]
  dsimp only
  cases hbody : ChatService.process_request_body env
      (ChatService.sanitize_input user_input) session_id detected_language with
  | ok r =>
    refine ⟨⟨r, rfl, ?_⟩, ?_⟩
    · exact ChatService.process_request_body_ok_ne_empty env _ _ _ r hbody
    · intro e he
      exact Except.noConfusion he
  | error e =>
    refine ⟨⟨ChatService.chat_fallback, rfl, by decide⟩, ?_⟩
    intro e' _
    rfl

/-- The collaborator environment of the C8 witness: every call succeeds
except the RAG engine, which times out on every attempt. -/
def ChatService.c8Env : ChatService.ChatEnv :=
  { track_session := fun _ _ => Except.ok ()
    analyze_sentiment := fun _ => Except.ok ("Positive")
    langdetect := fun _ => Except.ok ("en")
    kwTable := []
    dialogEnv := Dialogs.dialogEnvUnknown
    dialogStore := []
    ragCache := fun _ => none
    ragEngine := fun _ => Except.error PyErr.timeoutError
    get_chatgpt_response := fun _ _ _ => Except.ok ("Hello!")
    get_proverb_by_sentiment := fun _ _ =>
      Except.ok (("Fes bé i no facis mal.", "Do good and do no harm."))
    translate_text := fun _ _ => Except.ok ("") }

/-- C8 witness: a concrete request against a retriever that throws on
every attempt still gets a non-empty reply. -/
theorem c8_fallback_on_any_failure_witness :
    ∃ r, ChatService.process_request_async ChatService.c8Env ("hola") ("s1") none =
        Except.ok r ∧ r ≠ "" :=
  (c8_fallback_on_any_failure ChatService.c8Env ("hola") ("s1") none (by decide)).1

/-- C10 witness: a concrete round-trip on the `rag_query_cache` instance
(ttl 1800): a hit at time 5 and a miss at time 2000. -/
theorem c10_cache_roundtrip_witness :
    ((Cache.rag_query_cache (V := Nat)).put 0 ("k") 7).get 5 ("k") = some 7 ∧
    ((Cache.rag_query_cache (V := Nat)).put 0 ("k") 7).get 2000 ("k") = none :=
  ⟨(c10_cache_roundtrip (Cache.rag_query_cache (V := Nat)) 0 5 ("k") 7
      (by decide)).1 (by decide),
   (c10_cache_roundtrip (Cache.rag_query_cache (V := Nat)) 0 2000 ("k") 7
      (by decide)).2 (by decide)⟩

end XAT
